/-
Verification of the tao-publisher publish pipeline (src/tao).

Shallow embedding of:
  * the JSON values exchanged with the TAO platform,
  * the error taxonomy of src/tao/exceptions.py,
  * APIClient.request / APIClient.login (src/tao/api/client.py),
  * serialize_file / serialize_files (src/tao/utils/http.py),
  * PublishAPI.push / PublishAPI._prepare_push_request
    (src/tao/api/endpoints/publish.py),
  * the pydantic models of src/tao/models (container.py, component.py,
    publish.py) together with their dump (model_dump mode="json",
    by_alias=True) and validation semantics.

Conventions of the embedding:
  * Python `pathlib.Path` values are represented by their string form
    (a pydantic model stores a normalized path; `mode="json"` dumping
    yields exactly that string, so String round-trips faithfully).
  * JSON numbers are represented by rationals; Python ints are the
    `den = 1` case, matching pydantic's lax acceptance of integral
    floats for int fields.
  * Bodies that fail `response.json()` decoding are `none`.
  * `json.dumps` / `json.loads` (Python standard library, outside this
    repository) are modelled as the identity transport on the Json AST:
    `loads (dumps v) = v` is their documented behaviour for every value
    produced by `model_dump(mode="json")`.
-/

import Mathlib

set_option maxRecDepth 4096

/-- JSON value, as produced by `json.loads` / consumed by `json.dumps`.
Objects are ordered association lists (Python dicts preserve insertion
order); keys are assumed unique, as `json.loads` collapses duplicates. -/
inductive Json where
  | null : Json
  | bool (b : Bool) : Json
  | num (q : ℚ) : Json
  | str (s : String) : Json
  | arr (xs : List Json) : Json
  | obj (fields : List (String × Json)) : Json

/-- `d.get(k)` on a JSON object: first binding of `k`, `none` when the
value is not an object or the key is absent. -/
def Json.get : Json → String → Option Json
  | .obj fields, k => lookupField fields k
  | _, _ => none
where
  lookupField : List (String × Json) → String → Option Json
    | [], _ => none
    | (k', v) :: rest, k => if k' = k then some v else lookupField rest k

mutual

/-- Python `repr()` of a JSON-derived value (models the standard
library; only reachable from fallback error messages). String escaping
inside `repr` is not modelled (no claim depends on it). -/
def pyRepr : Json → String
  | .null => "None"
  | .bool true => "True"
  | .bool false => "False"
  | .num q => if q.den = 1 then toString q.num else toString q
  | .str s => "'" ++ s ++ "'"
  | .arr xs => "[" ++ String.intercalate ", " (pyReprList xs) ++ "]"
  | .obj fields =>
      "\x7b" ++ String.intercalate ", " (pyReprFields fields) ++ "\x7d"

def pyReprList : List Json → List String
  | [] => []
  | x :: xs => pyRepr x :: pyReprList xs

def pyReprFields : List (String × Json) → List String
  | [] => []
  | (k, v) :: rest => ("'" ++ k ++ "': " ++ pyRepr v) :: pyReprFields rest

end

/-- Python `str()` of a JSON-derived value (models the standard
library): identity on strings, `repr`-like otherwise. -/
def pyStr : Json → String
  | .str s => s
  | j => pyRepr j

/-- An HTTP response as seen by `APIClient.request` after the network
exchange: its status code and the result of `response.json()`
(`none` when the body is not syntactically valid JSON, in which case
`requests.JSONDecodeError` is raised). -/
structure HttpResponse where
  statusCode : Nat
  body : Option Json

/-- The `RequestError` family of src/tao/exceptions.py, each value
carrying the message built by the corresponding constructor.
`httpError` additionally carries the numeric status code (the Python
exception keeps it through its `http_error.response` chain).
Python class hierarchy: `LoginError` is a subclass of
`RequestResponseError`; `RequestHTTPError` and
`RequestResponseStatusError` are its siblings under `RequestError`. -/
inductive RequestErr where
  | httpError (statusCode : Nat) (msg : String)
  | responseStatusError (msg : String)
  | responseError (msg : String)
  | loginError (msg : String)
deriving DecidableEq

/-- `isinstance(e, RequestResponseError)`: true for
`RequestResponseError` itself and its subclass `LoginError`. -/
def RequestErr.isResponseError : RequestErr → Bool
  | .responseError _ => true
  | .loginError _ => true
  | _ => false

/-- Message of `RequestHTTPError.__init__` (src/tao/exceptions.py):
401 gets `"Authentication failed.\n"` plus the reason passed by the
caller; other codes get `"Request failed: HTTP <code>"` (the caller
passes no reason then). -/
def requestHTTPErrorMsg (statusCode : Nat) (reason : Option String) : String :=
  (if statusCode = 401 then "Authentication failed.\n"
   else "Request failed: HTTP " ++ toString statusCode) ++
  (match reason with | some r => r | none => "")

/-- Message of `RequestResponseStatusError.__init__`
(src/tao/exceptions.py): the envelope's `message` field if present,
otherwise `"Request status: <status>"` with the raw `status` field
(`"UNKNOWN"` when even `status` is absent). -/
def requestResponseStatusErrorMsg (responseJson : Json) : String :=
  match responseJson.get "message" with
  | some m => pyStr m
  | none =>
      "Request status: " ++
        pyStr ((responseJson.get "status").getD (.str "UNKNOWN"))

/-- `response.raise_for_status()` of the `requests` library raises
`HTTPError` exactly for client errors (4xx) and server errors (5xx). -/
def raiseForStatusRaises (statusCode : Nat) : Bool :=
  400 ≤ statusCode && statusCode < 600

/-- `APIClient.request` (src/tao/api/client.py, lines 124-148), after
the network exchange: `raise_for_status` first (→ `RequestHTTPError`,
with a credential hint as `reason` exactly for 401); then JSON
decoding (failure → `RequestResponseError` "expected JSON format");
then the envelope convention: a JSON object whose `status` equals
`"SUCCEEDED"` is returned, any other object raises
`RequestResponseStatusError`, and a non-object body raises
`RequestResponseError` "JSON is malformed". -/
def request (response : HttpResponse) : Except RequestErr Json :=
  if raiseForStatusRaises response.statusCode then
    .error (.httpError response.statusCode
      (requestHTTPErrorMsg response.statusCode
        (if response.statusCode = 401
         then some "Please verify your username and password."
         else none)))
  else
    match response.body with
    | none =>
        .error (.responseError "Unexpected server response, expected JSON format.")
    | some responseJson =>
        match responseJson with
        | .obj fields =>
            match (Json.obj fields).get "status" with
            | some (.str "SUCCEEDED") => .ok (.obj fields)
            | _ =>
                .error (.responseStatusError
                  (requestResponseStatusErrorMsg (.obj fields)))
        | _ =>
            .error (.responseError "Unexpected server response, JSON is malformed.")

/-- `APIClient.login` (src/tao/api/client.py, lines 70-95), given the
response to the POST on `/auth/login`.  A `RequestResponseError` from
`request` (which, by the Python class hierarchy, would also catch a
`LoginError`) is wrapped into a `LoginError` with the credential hint;
other request errors propagate unchanged.  On a successful envelope,
the token is `data["authToken"]` whenever `data` is an object with an
`"authToken"` key (`cast(str, ...)` is a runtime no-op, so the value is
returned as-is); otherwise a `LoginError` "missing authToken" is
raised. -/
def login (response : HttpResponse) : Except RequestErr Json :=
  match request response with
  | .error e =>
      if e.isResponseError then
        .error (.loginError
          "Authentication failed.\nPlease verify your username and password.")
      else
        .error e
  | .ok responseJson =>
      match responseJson.get "data" with
      | some (.obj dataFields) =>
          match (Json.obj dataFields).get "authToken" with
          | some token => .ok token
          | none => .error (.loginError "Login response missing \"authToken\".")
      | _ => .error (.loginError "Login response missing \"authToken\".")

/-
File resolution & serialization (src/tao/utils/http.py).  The file
system and the `mimetypes` / `pathlib` standard-library services are an
environment passed explicitly.
-/

/-- Serialized file record: `(file name, file content, mime type)`
(`SerializedFile` of src/tao/utils/http.py). Bytes are naturals. -/
def SerializedFile := String × List Nat × String

instance : DecidableEq SerializedFile := by
  unfold SerializedFile
  infer_instance

/-- Environment for file serialization: path resolution
(`(ctx_path / file_path).resolve()`), existence test (`Path.is_file`),
file reading, and `mimetypes.guess_type(path)[0]` (`none` when the
type cannot be guessed). -/
structure Fs where
  resolve : String → String → String
  isFile : String → Bool
  readBytes : String → List Nat
  guessType : String → Option String

/-- `PurePath.name`: final component of a path string (text after the
last slash). -/
def pathName (p : String) : String :=
  ⟨lastComponent p.data []⟩
where
  lastComponent : List Char → List Char → List Char
    | [], acc => acc.reverse
    | c :: rest, acc =>
        if c = '/' then lastComponent rest []
        else lastComponent rest (c :: acc)

/-- `serialize_file` (src/tao/utils/http.py, lines 93-112): resolve
`(ctx_path / file_path).resolve()`; if it is an existing regular file,
return `(name, bytes, mime type or "text/plain")`, else `none`. -/
def serialize_file (fs : Fs) (file_path : String) (ctx_path : String) :
    Option SerializedFile :=
  let resolved := fs.resolve ctx_path file_path
  if fs.isFile resolved then
    let file_mimetype :=
      match fs.guessType resolved with
      | some m => m
      | none => "text/plain"
    some (pathName resolved, fs.readBytes resolved, file_mimetype)
  else
    none

/-- `serialize_files` (src/tao/utils/http.py, lines 73-90): serialize
each path in order, keeping only the files that exist; no error is
raised for missing files. -/
def serialize_files (fs : Fs) (files : List String) (ctx_path : String) :
    List SerializedFile :=
  match files with
  | [] => []
  | file_path :: rest =>
      match serialize_file fs file_path ctx_path with
      | some file => file :: serialize_files fs rest ctx_path
      | none => serialize_files fs rest ctx_path

/-
Schema model (src/tao/models).  Enumerated `Literal` fields become
inductives; `Path`-typed fields are represented by their string form.
-/

/-- `format_type` values of `DataDescriptor` (component.py). -/
inductive FormatType where
  | RASTER | VECTOR | OTHER | FOLDER | JSON
deriving DecidableEq

def FormatType.toStr : FormatType → String
  | .RASTER => "RASTER"
  | .VECTOR => "VECTOR"
  | .OTHER => "OTHER"
  | .FOLDER => "FOLDER"
  | .JSON => "JSON"

def FormatType.ofStr : String → Option FormatType
  | "RASTER" => some .RASTER
  | "VECTOR" => some .VECTOR
  | "OTHER" => some .OTHER
  | "FOLDER" => some .FOLDER
  | "JSON" => some .JSON
  | _ => none

/-- `sensor_type` values of `DataDescriptor` (component.py). -/
inductive SensorType where
  | OPTICAL | RADAR | ALTIMETRIC | ATMOSPHERIC | UNKNOWN | PASSIVE_MICROWAVE
deriving DecidableEq

def SensorType.toStr : SensorType → String
  | .OPTICAL => "OPTICAL"
  | .RADAR => "RADAR"
  | .ALTIMETRIC => "ALTIMETRIC"
  | .ATMOSPHERIC => "ATMOSPHERIC"
  | .UNKNOWN => "UNKNOWN"
  | .PASSIVE_MICROWAVE => "PASSIVE_MICROWAVE"

def SensorType.ofStr : String → Option SensorType
  | "OPTICAL" => some .OPTICAL
  | "RADAR" => some .RADAR
  | "ALTIMETRIC" => some .ALTIMETRIC
  | "ATMOSPHERIC" => some .ATMOSPHERIC
  | "UNKNOWN" => some .UNKNOWN
  | "PASSIVE_MICROWAVE" => some .PASSIVE_MICROWAVE
  | _ => none

/-- `type_` values of `ParameterDescriptor` (component.py). -/
inductive ParamType where
  | REGULAR | TEMPLATE
deriving DecidableEq

def ParamType.toStr : ParamType → String
  | .REGULAR => "REGULAR"
  | .TEMPLATE => "TEMPLATE"

def ParamType.ofStr : String → Option ParamType
  | "REGULAR" => some .REGULAR
  | "TEMPLATE" => some .TEMPLATE
  | _ => none

/-- `visibility` values of `Component` (component.py). -/
inductive Visibility where
  | SYSTEM | USER | CONTRIBUTOR
deriving DecidableEq

def Visibility.toStr : Visibility → String
  | .SYSTEM => "SYSTEM"
  | .USER => "USER"
  | .CONTRIBUTOR => "CONTRIBUTOR"

def Visibility.ofStr : String → Option Visibility
  | "SYSTEM" => some .SYSTEM
  | "USER" => some .USER
  | "CONTRIBUTOR" => some .CONTRIBUTOR
  | _ => none

/-- `component_type` values of `Component` (component.py). -/
inductive ComponentType where
  | EXECUTABLE | SCRIPT | AGGREGATE | EXTERNAL | UTILITY
deriving DecidableEq

def ComponentType.toStr : ComponentType → String
  | .EXECUTABLE => "EXECUTABLE"
  | .SCRIPT => "SCRIPT"
  | .AGGREGATE => "AGGREGATE"
  | .EXTERNAL => "EXTERNAL"
  | .UTILITY => "UTILITY"

def ComponentType.ofStr : String → Option ComponentType
  | "EXECUTABLE" => some .EXECUTABLE
  | "SCRIPT" => some .SCRIPT
  | "AGGREGATE" => some .AGGREGATE
  | "EXTERNAL" => some .EXTERNAL
  | "UTILITY" => some .UTILITY
  | _ => none

/-- `category` values of `Component` (component.py). -/
inductive Category where
  | RASTER | VECTOR | OPTICAL | RADAR | MISC
deriving DecidableEq

def Category.toStr : Category → String
  | .RASTER => "RASTER"
  | .VECTOR => "VECTOR"
  | .OPTICAL => "OPTICAL"
  | .RADAR => "RADAR"
  | .MISC => "MISC"

def Category.ofStr : String → Option Category
  | "RASTER" => some .RASTER
  | "VECTOR" => some .VECTOR
  | "OPTICAL" => some .OPTICAL
  | "RADAR" => some .RADAR
  | "MISC" => some .MISC
  | _ => none

/-- `template_type` values of `ComponentDescriptor` (component.py). -/
inductive TemplateType where
  | VELOCITY | JAVASCRIPT | XSLT | JSON
deriving DecidableEq

def TemplateType.toStr : TemplateType → String
  | .VELOCITY => "VELOCITY"
  | .JAVASCRIPT => "JAVASCRIPT"
  | .XSLT => "XSLT"
  | .JSON => "JSON"

def TemplateType.ofStr : String → Option TemplateType
  | "VELOCITY" => some .VELOCITY
  | "JAVASCRIPT" => some .JAVASCRIPT
  | "XSLT" => some .XSLT
  | "JSON" => some .JSON
  | _ => none

/-- `_Dimension` (component.py): width/height, JSON numbers. -/
structure Dimension where
  width : ℚ
  height : ℚ
deriving DecidableEq

/-- `_Variable` (component.py): key/value pair. -/
structure Variable where
  key : String
  value : String
deriving DecidableEq

/-- `DataDescriptor` (component.py, lines 45-70). -/
structure DataDescriptor where
  format_type : FormatType := .RASTER
  format_name : Option String := none
  geometry : Option String := none
  crs : Option String := none
  sensor_type : Option SensorType := none
  dimension : Option Dimension := none
  location : Option String := none
deriving DecidableEq

/-- `SourceDescriptor` (component.py, lines 73-89). -/
structure SourceDescriptor where
  id_ : Option String := none
  parent_id : String
  name : String
  data_descriptor : DataDescriptor
  constraints : Option (List String) := none
  cardinality : Int := -1
  referenced_source_descriptor_id : Option String := none
deriving DecidableEq

/-- `TargetDescriptor` (component.py, lines 92-108). -/
structure TargetDescriptor where
  id_ : Option String := none
  parent_id : String
  name : String
  data_descriptor : DataDescriptor
  constraints : Option (List String) := none
  cardinality : Int := 0
  referenced_target_descriptor_id : Option String := none
deriving DecidableEq

/-- `ParameterDescriptor` (component.py, lines 111-163). -/
structure ParameterDescriptor where
  id_ : String
  type_ : ParamType := .REGULAR
  data_type : String
  default_value : Option String := none
  description : String
  label : String
  unit : Option String := none
  value_set : Option (List String) := none
  format_ : Option String := none
  not_null : Bool := true
deriving DecidableEq

/-- `ComponentDescriptor` (component.py, lines 166-229), with the
fields inherited from `Component` first, in pydantic's field order. -/
structure ComponentDescriptor where
  id_ : String
  label : String
  version : String := "1.0.0"
  description : String := ""
  authors : String := ""
  copyright_ : String := ""
  node_affinity : String := "Any"
  container_id : Option String := none
  visibility : Visibility := .USER
  active : Bool := true
  component_type : ComponentType := .EXECUTABLE
  category : Category := .RASTER
  output_managed : Bool := false
  tags : Option (List String) := none
  sources : List SourceDescriptor := []
  targets : List TargetDescriptor := []
  file_location : String
  working_directory : String
  template_type : TemplateType := .VELOCITY
  variables_ : Option (List Variable) := none
  multi_thread : Bool := false
  parallelism : Option Int := none
  owner : Option String := none
  transient : Option Bool := none
  parameter_descriptors : List ParameterDescriptor
  template_contents : String := ""
deriving DecidableEq

/-- `Application` (container.py, lines 34-43). -/
structure Application where
  path : String
  name : String
  memory_requirements : Int
  parallel_flag_template : Option String := none
deriving DecidableEq

/-- `ContainerDescriptor` (container.py, lines 46-60). -/
structure ContainerDescriptor where
  id_ : String
  name : String
  description : String
  tag : String := "latest"
  application_path : Option String := none
  format_ : Option (List String) := none
  format_name_parameter : Option String := none
  common_parameters : Option String := none
  applications : List Application := []
deriving DecidableEq

/-- `PublishSpec` (publish.py, lines 33-51). -/
structure PublishSpec where
  name : String := ""
  description : String := ""
  system : Bool := true
  container_logo : Option String := none
  container : ContainerDescriptor
  components : List ComponentDescriptor := []
  docker_files : List String := []
  auxiliary_files : List String := []
deriving DecidableEq

/-
`model_dump(mode="json", by_alias=True)`: every field is emitted under
its wire alias, in field-declaration order, with `None` as JSON null.
-/

/-- Dump an optional value, `None` becoming JSON null. -/
def optJson (f : α → Json) : Option α → Json
  | none => .null
  | some x => f x

def dumpDimension (d : Dimension) : Json :=
  .obj [("width", .num d.width), ("height", .num d.height)]

def dumpVariable (v : Variable) : Json :=
  .obj [("key", .str v.key), ("value", .str v.value)]

def dumpDataDescriptor (d : DataDescriptor) : Json :=
  .obj
    [("formatType", .str d.format_type.toStr),
     ("formatName", optJson .str d.format_name),
     ("geometry", optJson .str d.geometry),
     ("crs", optJson .str d.crs),
     ("sensorType", optJson (fun t => .str t.toStr) d.sensor_type),
     ("dimension", optJson dumpDimension d.dimension),
     ("location", optJson .str d.location)]

def dumpSourceDescriptor (s : SourceDescriptor) : Json :=
  .obj
    [("id", optJson .str s.id_),
     ("parentId", .str s.parent_id),
     ("name", .str s.name),
     ("dataDescriptor", dumpDataDescriptor s.data_descriptor),
     ("constraints", optJson (fun l => .arr (l.map .str)) s.constraints),
     ("cardinality", .num s.cardinality),
     ("referencedSourceDescriptorId",
       optJson .str s.referenced_source_descriptor_id)]

def dumpTargetDescriptor (t : TargetDescriptor) : Json :=
  .obj
    [("id", optJson .str t.id_),
     ("parentId", .str t.parent_id),
     ("name", .str t.name),
     ("dataDescriptor", dumpDataDescriptor t.data_descriptor),
     ("constraints", optJson (fun l => .arr (l.map .str)) t.constraints),
     ("cardinality", .num t.cardinality),
     ("referencedTargetDescriptorId",
       optJson .str t.referenced_target_descriptor_id)]

def dumpParameterDescriptor (p : ParameterDescriptor) : Json :=
  .obj
    [("id", .str p.id_),
     ("type", .str p.type_.toStr),
     ("dataType", .str p.data_type),
     ("defaultValue", optJson .str p.default_value),
     ("description", .str p.description),
     ("label", .str p.label),
     ("unit", optJson .str p.unit),
     ("valueSet", optJson (fun l => .arr (l.map .str)) p.value_set),
     ("format", optJson .str p.format_),
     ("notNull", .bool p.not_null)]

def dumpComponentDescriptor (c : ComponentDescriptor) : Json :=
  .obj
    [("id", .str c.id_),
     ("label", .str c.label),
     ("version", .str c.version),
     ("description", .str c.description),
     ("authors", .str c.authors),
     ("copyright", .str c.copyright_),
     ("nodeAffinity", .str c.node_affinity),
     ("containerId", optJson .str c.container_id),
     ("visibility", .str c.visibility.toStr),
     ("active", .bool c.active),
     ("componentType", .str c.component_type.toStr),
     ("category", .str c.category.toStr),
     ("outputManaged", .bool c.output_managed),
     ("tags", optJson (fun l => .arr (l.map .str)) c.tags),
     ("sources", .arr (c.sources.map dumpSourceDescriptor)),
     ("targets", .arr (c.targets.map dumpTargetDescriptor)),
     ("fileLocation", .str c.file_location),
     ("workingDirectory", .str c.working_directory),
     ("templateType", .str c.template_type.toStr),
     ("variables", optJson (fun l => .arr (l.map dumpVariable)) c.variables_),
     ("multiThread", .bool c.multi_thread),
     ("parallelism", optJson (fun n : Int => Json.num (n : ℚ)) c.parallelism),
     ("owner", optJson .str c.owner),
     ("transient", optJson .bool c.transient),
     ("parameterDescriptors",
       .arr (c.parameter_descriptors.map dumpParameterDescriptor)),
     ("templatecontents", .str c.template_contents)]

def dumpApplication (a : Application) : Json :=
  .obj
    [("path", .str a.path),
     ("name", .str a.name),
     ("memoryRequirements", .num a.memory_requirements),
     ("parallelFlagTemplate", optJson .str a.parallel_flag_template)]

def dumpContainerDescriptor (c : ContainerDescriptor) : Json :=
  .obj
    [("id", .str c.id_),
     ("name", .str c.name),
     ("description", .str c.description),
     ("tag", .str c.tag),
     ("applicationPath", optJson .str c.application_path),
     ("format", optJson (fun l => .arr (l.map .str)) c.format_),
     ("formatNameParameter", optJson .str c.format_name_parameter),
     ("commonParameters", optJson .str c.common_parameters),
     ("applications", .arr (c.applications.map dumpApplication))]

/-- `PublishSpec.model_dump(mode="json", by_alias=True,
exclude={"container_logo", "docker_files", "auxiliary_files"})`
(publish.py field order; `container` and `components` have no alias). -/
def publish_spec_dump (s : PublishSpec) : List (String × Json) :=
  [("name", .str s.name),
   ("description", .str s.description),
   ("system", .bool s.system),
   ("container", dumpContainerDescriptor s.container),
   ("components", .arr (s.components.map dumpComponentDescriptor))]

/-
Pydantic validation of JSON input, per field kind.  JSON-shape inputs
only: the extra lax coercions pydantic would perform on non-JSON Python
values (e.g. str→int) are outside the wire format and not modelled.
Missing keys take the field default; `null` is only legal for
`Optional` fields; unknown keys are ignored (pydantic default config).
Fields are populated from their alias exactly.
-/

/-- Required `str` field. -/
def pyStrField (j : Json) (key : String) : Option String :=
  match j.get key with
  | some (.str s) => some s
  | _ => none

/-- `str` field with a default (not Optional: null is rejected). -/
def pyStrFieldD (j : Json) (key : String) (dflt : String) : Option String :=
  match j.get key with
  | none => some dflt
  | some (.str s) => some s
  | _ => none

/-- `str | None` field defaulting to `None`. -/
def pyOptStrField (j : Json) (key : String) : Option (Option String) :=
  match j.get key with
  | none => some none
  | some .null => some none
  | some (.str s) => some (some s)
  | _ => none

/-- `bool` field with a default. -/
def pyBoolFieldD (j : Json) (key : String) (dflt : Bool) : Option Bool :=
  match j.get key with
  | none => some dflt
  | some (.bool b) => some b
  | _ => none

/-- `bool | None` field defaulting to `None`. -/
def pyOptBoolField (j : Json) (key : String) : Option (Option Bool) :=
  match j.get key with
  | none => some none
  | some .null => some none
  | some (.bool b) => some (some b)
  | _ => none

/-- `int` field with a default: accepts integral JSON numbers. -/
def pyIntFieldD (j : Json) (key : String) (dflt : Int) : Option Int :=
  match j.get key with
  | none => some dflt
  | some (.num q) => if q.den = 1 then some q.num else none
  | _ => none

/-- `int | None` field defaulting to `None`. -/
def pyOptIntField (j : Json) (key : String) : Option (Option Int) :=
  match j.get key with
  | none => some none
  | some .null => some none
  | some (.num q) => if q.den = 1 then some (some q.num) else none
  | _ => none

/-- Required `float` field (inside `_Dimension`): any JSON number. -/
def pyNumField (j : Json) (key : String) : Option ℚ :=
  match j.get key with
  | some (.num q) => some q
  | _ => none

/-- Enumerated (`Literal`) field with a default. -/
def pyEnumFieldD (ofStr : String → Option α) (j : Json) (key : String)
    (dflt : α) : Option α :=
  match j.get key with
  | none => some dflt
  | some (.str s) => ofStr s
  | _ => none

/-- `Literal[...] | None` field defaulting to `None`. -/
def pyOptEnumField (ofStr : String → Option α) (j : Json) (key : String) :
    Option (Option α) :=
  match j.get key with
  | none => some none
  | some .null => some none
  | some (.str s) => (ofStr s).map some
  | _ => none

/-- A JSON string, as element of a `list[str]` field. -/
def jsonAsStr : Json → Option String
  | .str s => some s
  | _ => none

/-- `list[α]` field with `default_factory=list`. -/
def pyListFieldD (parse : Json → Option α) (j : Json) (key : String) :
    Option (List α) :=
  match j.get key with
  | none => some []
  | some (.arr xs) => xs.mapM parse
  | _ => none

/-- Required `list[α]` field (no default). -/
def pyListField (parse : Json → Option α) (j : Json) (key : String) :
    Option (List α) :=
  match j.get key with
  | some (.arr xs) => xs.mapM parse
  | _ => none

/-- `list[α] | None` field defaulting to `None`. -/
def pyOptListField (parse : Json → Option α) (j : Json) (key : String) :
    Option (Option (List α)) :=
  match j.get key with
  | none => some none
  | some .null => some none
  | some (.arr xs) => (xs.mapM parse).map some
  | _ => none

/-- Base `dataType` vocabulary of `ParameterDescriptor._data_type_check`
(component.py, lines 142-153). -/
def possibleTypesBase : List String :=
  ["bool", "byte", "short", "int", "long", "float", "double", "string",
   "date", "polygon"]

/-- Full vocabulary: the base types and their `[]` array variants
(component.py, line 154). -/
def possibleTypes : List String :=
  possibleTypesBase ++ possibleTypesBase.map (fun t => t ++ "[]")

/-- Python `str.lower`, modelled as per-character ASCII lowercasing.
The model and `str.lower` agree on membership in the all-ASCII
`dataType` vocabulary: no vocabulary word contains `k`, the only ASCII
letter reachable by Unicode lowercasing of a non-ASCII character. -/
def pyLower (s : String) : String :=
  ⟨s.data.map Char.toLower⟩

/-- `ParameterDescriptor._data_type_check` (component.py, lines
138-158): lowercase the value, succeed with the lowercased value iff it
belongs to the vocabulary. -/
def data_type_check (val : String) : Option String :=
  let val := pyLower val
  if val ∈ possibleTypes then some val else none

/-- Validation of `_Dimension` (a `TypedDict`): both keys required. -/
def validateDimension (j : Json) : Option Dimension := do
  match j with
  | .obj _ =>
      let width ← pyNumField j "width"
      let height ← pyNumField j "height"
      pure { width, height }
  | _ => none

/-- `_Dimension | None` field defaulting to `None`. -/
def pyOptDimensionField (j : Json) (key : String) :
    Option (Option Dimension) :=
  match j.get key with
  | none => some none
  | some .null => some none
  | some v => (validateDimension v).map some

/-- Validation of `_Variable` (a `TypedDict`): both keys required. -/
def validateVariable (j : Json) : Option Variable := do
  match j with
  | .obj _ =>
      let key ← pyStrField j "key"
      let value ← pyStrField j "value"
      pure { key, value }
  | _ => none

/-- pydantic validation of `DataDescriptor` from JSON input. -/
def validateDataDescriptor (j : Json) : Option DataDescriptor :=
  match j with
  | .obj _ => do
      let format_type ← pyEnumFieldD FormatType.ofStr j "formatType" .RASTER
      let format_name ← pyOptStrField j "formatName"
      let geometry ← pyOptStrField j "geometry"
      let crs ← pyOptStrField j "crs"
      let sensor_type ← pyOptEnumField SensorType.ofStr j "sensorType"
      let dimension ← pyOptDimensionField j "dimension"
      let location ← pyOptStrField j "location"
      pure { format_type, format_name, geometry, crs, sensor_type,
             dimension, location }
  | _ => none

/-- pydantic validation of `SourceDescriptor` from JSON input
(`cardinality` carries `ge=-1`). -/
def validateSourceDescriptor (j : Json) : Option SourceDescriptor :=
  match j with
  | .obj _ => do
      let id_ ← pyOptStrField j "id"
      let parent_id ← pyStrField j "parentId"
      let name ← pyStrField j "name"
      let data_descriptor ← validateDataDescriptor
        (← j.get "dataDescriptor")
      let constraints ← pyOptListField jsonAsStr j "constraints"
      let cardinality ← pyIntFieldD j "cardinality" (-1)
      if cardinality < -1 then none else
      let referenced_source_descriptor_id ←
        pyOptStrField j "referencedSourceDescriptorId"
      pure { id_, parent_id, name, data_descriptor, constraints,
             cardinality, referenced_source_descriptor_id }
  | _ => none

/-- pydantic validation of `TargetDescriptor` from JSON input
(`cardinality` carries `ge=0`). -/
def validateTargetDescriptor (j : Json) : Option TargetDescriptor :=
  match j with
  | .obj _ => do
      let id_ ← pyOptStrField j "id"
      let parent_id ← pyStrField j "parentId"
      let name ← pyStrField j "name"
      let data_descriptor ← validateDataDescriptor
        (← j.get "dataDescriptor")
      let constraints ← pyOptListField jsonAsStr j "constraints"
      let cardinality ← pyIntFieldD j "cardinality" 0
      if cardinality < 0 then none else
      let referenced_target_descriptor_id ←
        pyOptStrField j "referencedTargetDescriptorId"
      pure { id_, parent_id, name, data_descriptor, constraints,
             cardinality, referenced_target_descriptor_id }
  | _ => none

/-- `defaultValue` field with its `mode="before"` validator
`_default_value_transform` (component.py, lines 160-163): `None` stays
`None`, anything else becomes its Python string form, which then
validates as `str`. -/
def pyDefaultValueField (j : Json) (key : String) : Option String :=
  match j.get key with
  | none => none
  | some .null => none
  | some v => some (pyStr v)

/-- pydantic validation of `ParameterDescriptor` from JSON input,
including the `_data_type_check` field validator. -/
def validateParameterDescriptor (j : Json) : Option ParameterDescriptor :=
  match j with
  | .obj _ => do
      let id_ ← pyStrField j "id"
      let type_ ← pyEnumFieldD ParamType.ofStr j "type" .REGULAR
      let data_type ← data_type_check (← pyStrField j "dataType")
      let default_value := pyDefaultValueField j "defaultValue"
      let description ← pyStrField j "description"
      let label ← pyStrField j "label"
      let unit ← pyOptStrField j "unit"
      let value_set ← pyOptListField jsonAsStr j "valueSet"
      let format_ ← pyOptStrField j "format"
      let not_null ← pyBoolFieldD j "notNull" true
      pure { id_, type_, data_type, default_value, description, label,
             unit, value_set, format_, not_null }
  | _ => none

/-- pydantic validation of `ComponentDescriptor` from JSON input.
`output_managed` is populated from `AliasChoices("outputManaged",
"managedOutput")`, first match; `parallelism` carries `gt=0`;
`template_contents` uses the (all-lowercase) alias
`templatecontents`.  All fields are parsed in one simultaneous match
(in `Option`, sequencing and simultaneity agree). -/
def validateComponentDescriptor (j : Json) : Option ComponentDescriptor :=
  match j with
  | .obj _ =>
      match pyStrField j "id", pyStrField j "label",
            pyStrFieldD j "version" "1.0.0",
            pyStrFieldD j "description" "",
            pyStrFieldD j "authors" "",
            pyStrFieldD j "copyright" "",
            pyStrFieldD j "nodeAffinity" "Any",
            pyOptStrField j "containerId",
            pyEnumFieldD Visibility.ofStr j "visibility" .USER,
            pyBoolFieldD j "active" true,
            pyEnumFieldD ComponentType.ofStr j "componentType" .EXECUTABLE,
            pyEnumFieldD Category.ofStr j "category" .RASTER,
            (match j.get "outputManaged" with
             | some _ => pyBoolFieldD j "outputManaged" false
             | none => pyBoolFieldD j "managedOutput" false),
            pyOptListField jsonAsStr j "tags",
            pyListFieldD validateSourceDescriptor j "sources",
            pyListFieldD validateTargetDescriptor j "targets",
            pyStrField j "fileLocation",
            pyStrField j "workingDirectory",
            pyEnumFieldD TemplateType.ofStr j "templateType" .VELOCITY,
            pyOptListField validateVariable j "variables",
            pyBoolFieldD j "multiThread" false,
            pyOptIntField j "parallelism",
            pyOptStrField j "owner",
            pyOptBoolField j "transient",
            pyListField validateParameterDescriptor j "parameterDescriptors",
            pyStrFieldD j "templatecontents" "" with
      | some id_, some label, some version, some description, some authors,
        some copyright_, some node_affinity, some container_id,
        some visibility, some active, some component_type, some category,
        some output_managed, some tags, some sources, some targets,
        some file_location, some working_directory, some template_type,
        some variables_, some multi_thread, some parallelism, some owner,
        some transient, some parameter_descriptors, some template_contents =>
          match parallelism with
          | some n =>
              if n ≤ 0 then none
              else
                some { id_, label, version, description, authors, copyright_,
                       node_affinity, container_id, visibility, active,
                       component_type, category, output_managed, tags,
                       sources, targets, file_location, working_directory,
                       template_type, variables_, multi_thread, parallelism,
                       owner, transient, parameter_descriptors,
                       template_contents }
          | none =>
              some { id_, label, version, description, authors, copyright_,
                     node_affinity, container_id, visibility, active,
                     component_type, category, output_managed, tags,
                     sources, targets, file_location, working_directory,
                     template_type, variables_, multi_thread, parallelism,
                     owner, transient, parameter_descriptors,
                     template_contents }
      | _, _, _, _, _, _, _, _, _, _, _, _, _, _, _, _, _, _, _, _, _, _,
        _, _, _, _ => none
  | _ => none

/-- pydantic validation of `Application` from JSON input. -/
def validateApplication (j : Json) : Option Application :=
  match j with
  | .obj _ => do
      let path ← pyStrField j "path"
      let name ← pyStrField j "name"
      let memory_requirements ←
        match j.get "memoryRequirements" with
        | some (.num q) => if q.den = 1 then some q.num else none
        | _ => none
      let parallel_flag_template ← pyOptStrField j "parallelFlagTemplate"
      pure { path, name, memory_requirements, parallel_flag_template }
  | _ => none

/-- pydantic validation of `ContainerDescriptor` from JSON input. -/
def validateContainerDescriptor (j : Json) : Option ContainerDescriptor :=
  match j with
  | .obj _ => do
      let id_ ← pyStrField j "id"
      let name ← pyStrField j "name"
      let description ← pyStrField j "description"
      let tag ← pyStrFieldD j "tag" "latest"
      let application_path ← pyOptStrField j "applicationPath"
      let format_ ← pyOptListField jsonAsStr j "format"
      let format_name_parameter ← pyOptStrField j "formatNameParameter"
      let common_parameters ← pyOptStrField j "commonParameters"
      let applications ← pyListFieldD validateApplication j "applications"
      pure { id_, name, description, tag, application_path, format_,
             format_name_parameter, common_parameters, applications }
  | _ => none

/-
Request Builder (src/tao/api/endpoints/publish.py).
-/

/-- Models `json.dumps` on a `model_dump(mode="json")` value.  The
produced text is represented by the Json value it encodes: `json.loads`
(its inverse, Python standard library, outside this repository)
recovers exactly this value, so the text layer is the identity
transport on the AST. -/
def json_dumps (j : Json) : Json := j

/-- `dict` deletion (`dict.pop(k)` minus its returned value). -/
def assocRemove (l : List (String × Json)) (k : String) :
    List (String × Json) :=
  l.filter fun kv => kv.1 ≠ k

/-- `dict` assignment `d[k] = v`: replace in place when the key exists,
append otherwise. -/
def assocSet (l : List (String × Json)) (k : String) (v : Json) :
    List (String × Json) :=
  if l.any (fun kv => kv.1 = k) then
    l.map fun kv => if kv.1 = k then (k, v) else kv
  else
    l ++ [(k, v)]

/-- Python `repr` of a list of `PosixPath` values, as interpolated in
the `PublishDefinitionError` messages. -/
def pyPathListRepr (paths : List String) : String :=
  "[" ++
    String.intercalate ", " (paths.map fun p => "PosixPath('" ++ p ++ "')") ++
  "]"

/-- Docker/auxiliary phase of `PublishAPI._prepare_push_request`
(publish.py, lines 90-110): serialize the docker files and then the
auxiliary files, failing on the first list whose serialized count
differs from its input count, and append the file parts under their
repeated field names. -/
def prepare_push_files (fs : Fs) (publish_spec : PublishSpec)
    (ctx_path : String) (logoFiles : List (String × SerializedFile)) :
    Except String (List (String × SerializedFile)) :=
  let docker_files := serialize_files fs publish_spec.docker_files ctx_path
  if docker_files.length ≠ publish_spec.docker_files.length then
    .error ("Missing at least one docker files: " ++
      pyPathListRepr publish_spec.docker_files)
  else
    let auxiliary_files :=
      serialize_files fs publish_spec.auxiliary_files ctx_path
    if auxiliary_files.length ≠ publish_spec.auxiliary_files.length then
      .error ("Missing at least one auxiliary files: " ++
        pyPathListRepr publish_spec.auxiliary_files)
    else
      .ok (logoFiles ++
        docker_files.map (fun f => ("dockerFiles", f)) ++
        auxiliary_files.map (fun f => ("auxiliaryFiles", f)))

/-- `PublishAPI._prepare_push_request` (publish.py, lines 64-110):
dump the spec, replace `container`/`components` by the JSON-text fields
`containerDescriptor`/`componentDescriptors`, then serialize the logo
(an unresolvable logo is a definition error) and hand over to
`prepare_push_files` for the docker and auxiliary lists.  `.error`
carries the reason passed to `PublishDefinitionError`. -/
def prepare_push_request (fs : Fs) (publish_spec : PublishSpec)
    (ctx_path : String) :
    Except String (List (String × Json) × List (String × SerializedFile)) :=
  let data := publish_spec_dump publish_spec
  let containerVal := ((Json.obj data).get "container").getD .null
  let componentsVal := ((Json.obj data).get "components").getD .null
  let data := assocRemove (assocRemove data "container") "components"
  let data := assocSet data "containerDescriptor" (json_dumps containerVal)
  let data := assocSet data "componentDescriptors" (json_dumps componentsVal)
  let logoResult : Except String (List (String × SerializedFile)) :=
    match publish_spec.container_logo with
    | none => .ok []
    | some logoPath =>
        match serialize_file fs logoPath ctx_path with
        | some logo => .ok [("containerLogo", logo)]
        | none => .error ("Could not find logo file: " ++ logoPath)
  match logoResult with
  | .error e => .error e
  | .ok logoFiles =>
      match prepare_push_files fs publish_spec ctx_path logoFiles with
      | .error e => .error e
      | .ok files => .ok (data, files)

/-- Errors surfaced by `PublishAPI.push`: a `PublishDefinitionError`
(carrying the full message built by its constructor, exceptions.py
lines 31-46) or a propagated `RequestError`. -/
inductive PushErr where
  | publishDefinitionError (msg : String)
  | requestError (e : RequestErr)
deriving DecidableEq

/-- Message of `PublishDefinitionError.__init__` (exceptions.py):
fixed prefix plus the reason (no pydantic error attached on the push
paths). -/
def publishDefinitionErrorMsg (reason : String) : String :=
  "Publish definition is invalid.\n" ++ reason

/-- `PublishAPI.push` (publish.py, lines 43-62): build the request
parts, then perform exactly one `client.request` POST.  The network is
the environment: `serverResponse` is what that single exchange would
return.  The second component counts the `client.request` calls
performed, so a definition error yields zero network calls.  On
success Python returns `None` after logging; the envelope is returned
here so that the protocol outcome stays observable. -/
def push (fs : Fs) (publish_spec : PublishSpec) (ctx_path : String)
    (serverResponse : HttpResponse) : Except PushErr Json × Nat :=
  match prepare_push_request fs publish_spec ctx_path with
  | .error reason =>
      (.error (.publishDefinitionError (publishDefinitionErrorMsg reason)), 0)
  | .ok _ =>
      match request serverResponse with
      | .error e => (.error (.requestError e), 1)
      | .ok responseJson => (.ok responseJson, 1)

/-
Validity of stored model values: exactly the pydantic constraints the
models impose, so a valid value is one obtainable from validation.
-/

/-- Constraint on a stored `SourceDescriptor`: `cardinality` has
`ge=-1`. -/
def SourceDescriptor.IsValid (s : SourceDescriptor) : Prop :=
  -1 ≤ s.cardinality

/-- Constraint on a stored `TargetDescriptor`: `cardinality` has
`ge=0`. -/
def TargetDescriptor.IsValid (t : TargetDescriptor) : Prop :=
  0 ≤ t.cardinality

/-- Constraint on a stored `ParameterDescriptor`: `data_type` is one of
the vocabulary words (already lowercased by `_data_type_check`). -/
def ParameterDescriptor.IsValid (p : ParameterDescriptor) : Prop :=
  p.data_type ∈ possibleTypes

/-- Constraints on a stored `ComponentDescriptor` and its parts
(`parallelism` has `gt=0`). -/
def ComponentDescriptor.IsValid (c : ComponentDescriptor) : Prop :=
  (∀ s ∈ c.sources, s.IsValid) ∧
  (∀ t ∈ c.targets, t.IsValid) ∧
  (∀ p ∈ c.parameter_descriptors, p.IsValid) ∧
  (∀ n, c.parallelism = some n → 0 < n)

/-- A valid `PublishSpec`: every component satisfies its model
constraints (the container model imposes none). -/
def PublishSpec.IsValid (sp : PublishSpec) : Prop :=
  ∀ c ∈ sp.components, c.IsValid

/-- The check `isinstance(data, dict) and "authToken" in data` of
`APIClient.login`, on the envelope's `data` field. -/
def dataHasAuthTokenKey : Option Json → Bool
  | some (.obj dataFields) => ((Json.obj dataFields).get "authToken").isSome
  | _ => false

/-
Concrete fixtures for witnesses.
-/

/-- A file system on which no file exists. -/
def fsEmptyFiles : Fs :=
  { resolve := fun c p => c ++ "/" ++ p,
    isFile := fun _ => false,
    readBytes := fun _ => [],
    guessType := fun _ => none }

/-- A file system on which only `/ctx/a.py` exists, with content
"hi" and no guessable MIME type. -/
def fsCtxA : Fs :=
  { resolve := fun c p => c ++ "/" ++ p,
    isFile := fun p => p = "/ctx/a.py",
    readBytes := fun _ => [104, 105],
    guessType := fun _ => none }

/-- A minimal container descriptor. -/
def contMinimal : ContainerDescriptor :=
  { id_ := "cont-id", name := "cont", description := "" }

/-- A publish spec referencing no file at all. -/
def specNoFiles : PublishSpec :=
  { container := contMinimal }

/-- A publish spec whose logo does not exist on `fsEmptyFiles`. -/
def specMissingLogo : PublishSpec :=
  { container := contMinimal, container_logo := some "logo.png" }

/-- A sample valid component exercising every field kind. -/
def compSample : ComponentDescriptor :=
  { id_ := "comp-1",
    label := "Comp",
    container_id := some "cont-id",
    visibility := .CONTRIBUTOR,
    component_type := .SCRIPT,
    category := .MISC,
    output_managed := true,
    tags := some ["t1", "t2"],
    sources :=
      [{ parent_id := "comp-1", name := "in",
         data_descriptor := { format_type := .VECTOR,
                              sensor_type := some .RADAR,
                              dimension := some { width := 2, height := 3 } },
         cardinality := 1 }],
    targets :=
      [{ parent_id := "comp-1", name := "out",
         data_descriptor := { location := some "out.tif" },
         cardinality := 0 }],
    file_location := "bin/run.sh",
    working_directory := "wd",
    template_type := .JSON,
    variables_ := some [{ key := "k", value := "v" }],
    multi_thread := true,
    parallelism := some 4,
    transient := some false,
    parameter_descriptors :=
      [{ id_ := "p1", type_ := .TEMPLATE, data_type := "int[]",
         default_value := some "1", description := "a param",
         label := "p", value_set := some ["1", "2"],
         format_ := some "fmt", not_null := false }],
    template_contents := "-p=$p1" }

/-- A sample valid publish spec. -/
def specSample : PublishSpec :=
  { name := "pub",
    description := "a publication",
    system := false,
    container :=
      { id_ := "cont-id", name := "cont", description := "d", tag := "v2",
        application_path := some "apps",
        format_ := some ["GTiff"],
        applications :=
          [{ path := "bin/run.sh", name := "run",
             memory_requirements := 1024,
             parallel_flag_template := some "-j" }] },
    components := [compSample] }

/-
Theorems.  Helper lemmas first, then one theorem per claim (with its
witness or counterexample).
-/

theorem strAppendEmpty (s : String) : s ++ "" = s := by
  cases s with
  | mk d =>
      show String.mk (d ++ []) = String.mk d
      rw [List.append_nil]

theorem not_raiseForStatus_of_2xx {n : Nat} (h : 200 ≤ n ∧ n < 300) :
    raiseForStatusRaises n = false := by
  simp only [raiseForStatusRaises, Bool.and_eq_false_iff,
    decide_eq_false_iff_not]
  omega

/-- C1: a 2xx response whose JSON-object body carries a `status` other
than the sentinel `"SUCCEEDED"` makes `request` raise
`RequestResponseStatusError`, whose message is the platform's own
`message` field when present and otherwise names the raw status; in
particular `push` on a 200 response with body
`{"status": "FAILED", "message": "quota exceeded"}` raises it with
message "quota exceeded" (after one network call). -/
theorem C1_status_error (resp : HttpResponse) (fields : List (String × Json))
    (h2xx : 200 ≤ resp.statusCode ∧ resp.statusCode < 300)
    (hbody : resp.body = some (.obj fields))
    (hstatus : (Json.obj fields).get "status" ≠ some (.str "SUCCEEDED")) :
    request resp = .error (.responseStatusError
      (match (Json.obj fields).get "message" with
       | some m => pyStr m
       | none =>
           "Request status: " ++
             pyStr (((Json.obj fields).get "status").getD (.str "UNKNOWN")))) ∧
    push fsEmptyFiles specNoFiles "/ctx"
      ⟨200, some (.obj [("status", .str "FAILED"),
                        ("message", .str "quota exceeded")])⟩
      = (.error (.requestError (.responseStatusError "quota exceeded")), 1) := by
  refine ⟨?_, rfl⟩
  have hmsg :
      (match (Json.obj fields).get "message" with
       | some m => pyStr m
       | none =>
           "Request status: " ++
             pyStr (((Json.obj fields).get "status").getD (.str "UNKNOWN")))
      = requestResponseStatusErrorMsg (.obj fields) := rfl
  rw [hmsg]
  unfold request
  rw [not_raiseForStatus_of_2xx h2xx, hbody]
  simp only [Bool.false_eq_true, if_false]

/-- C1 witness: the quota-exceeded example instantiates the theorem. -/
theorem C1_status_error_witness :
    request ⟨200, some (.obj [("status", .str "FAILED"),
                              ("message", .str "quota exceeded")])⟩
      = .error (.responseStatusError "quota exceeded") ∧
    push fsEmptyFiles specNoFiles "/ctx"
      ⟨200, some (.obj [("status", .str "FAILED"),
                        ("message", .str "quota exceeded")])⟩
      = (.error (.requestError (.responseStatusError "quota exceeded")), 1) := by
  have h := C1_status_error
    ⟨200, some (.obj [("status", .str "FAILED"),
                      ("message", .str "quota exceeded")])⟩
    [("status", .str "FAILED"), ("message", .str "quota exceeded")]
    (by decide) rfl
    (by simp [Json.get, Json.get.lookupField])
  exact ⟨h.1, h.2⟩

/-- C2 counterexample: a 200 response whose body is the JSON object
`{}` (valid JSON, no `status` envelope) raises
`RequestResponseStatusError`, not `RequestResponseError` as the claim
states. -/
theorem C2_counterexample :
    request ⟨200, some (.obj [])⟩
      = .error (.responseStatusError "Request status: UNKNOWN") ∧
    ∀ msg, request ⟨200, some (.obj [])⟩ ≠ .error (.responseError msg) := by
  refine ⟨rfl, ?_⟩
  intro msg h
  rw [show request ⟨200, some (.obj [])⟩
      = .error (.responseStatusError "Request status: UNKNOWN") from rfl] at h
  simp at h

/-- C2 amended: a 2xx response whose body is valid JSON but not a JSON
object raises `RequestResponseError` (message "Unexpected server
response, JSON is malformed."); a 2xx JSON object with no `status`
field instead raises `RequestResponseStatusError` (the missing status
is not the sentinel). -/
theorem C2_amended (resp : HttpResponse) (j : Json)
    (h2xx : 200 ≤ resp.statusCode ∧ resp.statusCode < 300)
    (hbody : resp.body = some j) :
    ((∀ fields, j ≠ .obj fields) →
      request resp
        = .error (.responseError "Unexpected server response, JSON is malformed.")) ∧
    (∀ fields, j = .obj fields → (Json.obj fields).get "status" = none →
      request resp
        = .error (.responseStatusError
            (requestResponseStatusErrorMsg (.obj fields)))) := by
  constructor
  · intro hnotobj
    unfold request
    rw [not_raiseForStatus_of_2xx h2xx, hbody]
    simp only [Bool.false_eq_true, if_false]
  · intro fields hj hstatus
    subst hj
    unfold request
    rw [not_raiseForStatus_of_2xx h2xx, hbody]
    simp only [Bool.false_eq_true, if_false, hstatus]

/-- C2 amended witness: a 200 response with body `[]` (valid JSON, not
an object). -/
theorem C2_amended_witness :
    request ⟨200, some (.arr [])⟩
      = .error (.responseError "Unexpected server response, JSON is malformed.") :=
  (C2_amended ⟨200, some (.arr [])⟩ (.arr []) (by decide) rfl).1
    (by intro fields h; cases h)

/-- C8 counterexample: a response with the non-2xx status 304 and a
successful envelope is returned as a success — `raise_for_status` only
raises for 4xx/5xx, so no `RequestHTTPError` is raised for it. -/
theorem C8_counterexample :
    request ⟨304, some (.obj [("status", .str "SUCCEEDED")])⟩
      = .ok (.obj [("status", .str "SUCCEEDED")]) ∧
    ∀ c msg, request ⟨304, some (.obj [("status", .str "SUCCEEDED")])⟩
      ≠ .error (.httpError c msg) := by
  refine ⟨rfl, ?_⟩
  intro c msg h
  rw [show request ⟨304, some (.obj [("status", .str "SUCCEEDED")])⟩
      = .ok (.obj [("status", .str "SUCCEEDED")]) from rfl] at h
  simp at h

/-- C8 amended: every response with status in 400..599 makes `request`
raise `RequestHTTPError` carrying that numeric status; the message for
401 is "Authentication failed." plus the credential-verification hint,
and for any other such status it names the code. -/
theorem C8_amended (resp : HttpResponse)
    (h : 400 ≤ resp.statusCode ∧ resp.statusCode < 600) :
    request resp = .error (.httpError resp.statusCode
      (if resp.statusCode = 401 then
        "Authentication failed.\nPlease verify your username and password."
       else "Request failed: HTTP " ++ toString resp.statusCode)) := by
  have hraise : raiseForStatusRaises resp.statusCode = true := by
    simp only [raiseForStatusRaises, Bool.and_eq_true, decide_eq_true_eq]
    omega
  unfold request
  rw [hraise]
  simp only [if_true]
  by_cases h401 : resp.statusCode = 401
  · simp [h401, requestHTTPErrorMsg]
  · simp [h401, requestHTTPErrorMsg, strAppendEmpty]

/-- C8 amended witness: statuses 401 and 500. -/
theorem C8_amended_witness :
    request ⟨401, none⟩ = .error (.httpError 401
      "Authentication failed.\nPlease verify your username and password.") ∧
    request ⟨500, none⟩ = .error (.httpError 500
      "Request failed: HTTP 500") := by
  have h1 := C8_amended ⟨401, none⟩ (by decide)
  have h2 := C8_amended ⟨500, none⟩ (by decide)
  simp only [if_true, if_false] at h1 h2
  exact ⟨h1, by simpa using h2⟩

/-- C5 counterexample: a successful envelope whose `data` holds a
non-string `authToken` (the number 42) makes `login` succeed and
return that value — only key membership is checked (`cast` is a
runtime no-op), so no `LoginError` is raised although `data` holds no
`authToken` string. -/
theorem C5_counterexample :
    login ⟨200, some (.obj [("status", .str "SUCCEEDED"),
                            ("data", .obj [("authToken", .num 42)])])⟩
      = .ok (.num 42) ∧
    ∀ msg, login ⟨200, some (.obj [("status", .str "SUCCEEDED"),
                                   ("data", .obj [("authToken", .num 42)])])⟩
      ≠ .error (.loginError msg) := by
  refine ⟨rfl, ?_⟩
  intro msg h
  rw [show login ⟨200, some (.obj [("status", .str "SUCCEEDED"),
                                   ("data", .obj [("authToken", .num 42)])])⟩
      = .ok (.num 42) from rfl] at h
  simp at h

/-- C5 amended: under a successful envelope, whenever the `data` field
is not a JSON object containing an `"authToken"` key (of whatever
value type), `login` raises `LoginError` "missing authToken" — neither
a success nor any other error. -/
theorem C5_amended (resp : HttpResponse) (j : Json)
    (hok : request resp = .ok j)
    (hnotok : dataHasAuthTokenKey (j.get "data") = false) :
    login resp = .error (.loginError "Login response missing \"authToken\".") := by
  have hstep : login resp
      = (match j.get "data" with
         | some (.obj dataFields) =>
             (match (Json.obj dataFields).get "authToken" with
              | some token => .ok token
              | none =>
                  .error (.loginError "Login response missing \"authToken\"."))
         | _ => .error (.loginError "Login response missing \"authToken\".")) := by
    unfold login
    rw [hok]
  rw [hstep]
  rcases hdata : j.get "data" with _ | v
  · rfl
  · cases v with
    | obj dataFields =>
        rw [hdata] at hnotok
        simp only [dataHasAuthTokenKey] at hnotok
        change ((match (Json.obj dataFields).get "authToken" with
                 | some token => Except.ok token
                 | none =>
                     Except.error
                       (RequestErr.loginError
                         "Login response missing \"authToken\".")) :
                Except RequestErr Json) = _
        rcases htok : (Json.obj dataFields).get "authToken" with _ | tok
        · rfl
        · rw [htok] at hnotok
          simp at hnotok
    | null => rfl
    | bool b => rfl
    | num q => rfl
    | str s => rfl
    | arr xs => rfl

/-- C5 amended witness: the empty-`data` example from the spec. -/
theorem C5_amended_witness :
    login ⟨200, some (.obj [("status", .str "SUCCEEDED"), ("data", .obj [])])⟩
      = .error (.loginError "Login response missing \"authToken\".") :=
  C5_amended ⟨200, some (.obj [("status", .str "SUCCEEDED"),
                               ("data", .obj [])])⟩
    (.obj [("status", .str "SUCCEEDED"), ("data", .obj [])]) rfl rfl

/-- C10: `login` wraps exactly the `RequestResponseError` outcomes of
the underlying `request` into a `LoginError` with the credential hint;
`RequestHTTPError` and `RequestResponseStatusError` outcomes propagate
unchanged, with their type and message intact. -/
theorem C10_login_propagation (resp : HttpResponse) :
    (∀ msg, request resp = .error (.responseError msg) →
      login resp = .error (.loginError
        "Authentication failed.\nPlease verify your username and password.")) ∧
    (∀ c msg, request resp = .error (.httpError c msg) →
      login resp = .error (.httpError c msg)) ∧
    (∀ msg, request resp = .error (.responseStatusError msg) →
      login resp = .error (.responseStatusError msg)) := by
  refine ⟨fun msg h => ?_, fun c msg h => ?_, fun msg h => ?_⟩ <;>
    · unfold login
      rw [h]
      rfl

/-- C10 witness: a malformed-body response is wrapped into
`LoginError`; an HTTP 500 response propagates unchanged. -/
theorem C10_login_propagation_witness :
    login ⟨200, none⟩ = .error (.loginError
      "Authentication failed.\nPlease verify your username and password.") ∧
    login ⟨500, none⟩ = .error (.httpError 500 "Request failed: HTTP 500") :=
  ⟨(C10_login_propagation ⟨200, none⟩).1
      "Unexpected server response, expected JSON format." rfl,
   (C10_login_propagation ⟨500, none⟩).2.1 500 "Request failed: HTTP 500" rfl⟩

/-- C7: `dataType` validation accepts exactly the fixed vocabulary and
its `[]` array variants, in any casing (a string whose lowercasing is a
vocabulary word), storing the lowercase normalization; every other
string is rejected. -/
theorem C7_dataType_vocabulary (s : String) :
    possibleTypes
      = ["bool", "byte", "short", "int", "long", "float", "double",
         "string", "date", "polygon",
         "bool[]", "byte[]", "short[]", "int[]", "long[]", "float[]",
         "double[]", "string[]", "date[]", "polygon[]"] ∧
    (pyLower s ∈ possibleTypes → data_type_check s = some (pyLower s)) ∧
    (pyLower s ∉ possibleTypes → data_type_check s = none) := by
  refine ⟨by decide, fun h => ?_, fun h => ?_⟩
  · simp only [data_type_check, if_pos h]
  · simp only [data_type_check, if_neg h]

/-- C7 witness: a mixed-case array variant is accepted and normalized;
a word outside the vocabulary is rejected. -/
theorem C7_dataType_vocabulary_witness :
    data_type_check "Double[]" = some "double[]" ∧
    data_type_check "uint" = none := by
  constructor
  · have h := (C7_dataType_vocabulary "Double[]").2.1 (by decide)
    simpa using h
  · exact (C7_dataType_vocabulary "uint").2.2 (by decide)

/-- C6: `serialize_files` resolves each path against the context
directory; the records are exactly those of the paths whose resolution
is an existing file, in input order, each carrying the resolved path's
final name component, the file bytes, and the guessed MIME type with
fallback "text/plain"; missing paths are silently skipped (the
function is total, no error value exists at this layer), hence the
output is never longer than the input. -/
theorem C6_serialize_files (fs : Fs) (files : List String)
    (ctx_path : String) :
    serialize_files fs files ctx_path
      = (files.filter fun p => fs.isFile (fs.resolve ctx_path p)).map
          (fun p =>
            (pathName (fs.resolve ctx_path p),
             fs.readBytes (fs.resolve ctx_path p),
             (fs.guessType (fs.resolve ctx_path p)).getD "text/plain")) ∧
    (serialize_files fs files ctx_path).length ≤ files.length := by
  have hmain : serialize_files fs files ctx_path
      = (files.filter fun p => fs.isFile (fs.resolve ctx_path p)).map
          (fun p =>
            (pathName (fs.resolve ctx_path p),
             fs.readBytes (fs.resolve ctx_path p),
             (fs.guessType (fs.resolve ctx_path p)).getD "text/plain")) := by
    induction files with
    | nil => rfl
    | cons p rest ih =>
        unfold serialize_files serialize_file
        rcases hf : fs.isFile (fs.resolve ctx_path p) with _ | _
        · simp only [hf, Bool.false_eq_true, if_false, List.filter_cons,
            ih]
        · simp only [hf, if_true, List.filter_cons, List.map_cons, ih]
          rcases hg : fs.guessType (fs.resolve ctx_path p) with _ | m <;>
            simp [hg, Option.getD]
  refine ⟨hmain, ?_⟩
  rw [hmain]
  calc ((files.filter fun p => fs.isFile (fs.resolve ctx_path p)).map _).length
      = (files.filter fun p => fs.isFile (fs.resolve ctx_path p)).length :=
        List.length_map _ _
    _ ≤ files.length := List.length_filter_le _ _

/-- C9 counterexample: validation accepts a container descriptor whose
`id` and `name` are both the empty string — no non-emptiness invariant
is enforced by the model. -/
theorem C9_counterexample :
    validateContainerDescriptor
        (.obj [("id", .str ""), ("name", .str ""), ("description", .str "")])
      = some { id_ := "", name := "", description := "" } ∧
    validateContainerDescriptor
        (.obj [("id", .str ""), ("name", .str ""), ("description", .str "")])
      ≠ none := by
  refine ⟨rfl, ?_⟩
  intro h
  rw [show validateContainerDescriptor
        (.obj [("id", .str ""), ("name", .str ""), ("description", .str "")])
      = some { id_ := "", name := "", description := "" } from rfl] at h
  simp at h

theorem pyStrField_eq_some {j : Json} {k : String} {s : String}
    (h : pyStrField j k = some s) : j.get k = some (.str s) := by
  unfold pyStrField at h
  split at h
  · rename_i heq
    rw [heq]
    cases h
    rfl
  · cases h

/-- C9 amended: `id` and `name` are required string fields — every
accepted input presents both keys as JSON strings, which become the
stored values — but emptiness is not checked. -/
theorem C9_amended (j : Json) (c : ContainerDescriptor)
    (h : validateContainerDescriptor j = some c) :
    j.get "id" = some (.str c.id_) ∧ j.get "name" = some (.str c.name) := by
  unfold validateContainerDescriptor at h
  cases j with
  | obj fields =>
      rcases hid : pyStrField (Json.obj fields) "id" with _ | idv
      · rw [hid] at h
        cases h
      · rcases hname : pyStrField (Json.obj fields) "name" with _ | namev
        · rw [hid, hname] at h
          cases h
        · rw [hid, hname] at h
          have hc : c.id_ = idv ∧ c.name = namev := by
            simp only [Option.bind_eq_bind, Option.some_bind] at h
            rcases hd : pyStrField (Json.obj fields) "description" with _ | d <;>
              rw [hd] at h
            · cases h
            · simp only [Option.some_bind] at h
              rcases ht : pyStrFieldD (Json.obj fields) "tag" "latest"
                  with _ | t <;> rw [ht] at h
              · cases h
              · simp only [Option.some_bind] at h
                rcases hap : pyOptStrField (Json.obj fields) "applicationPath"
                    with _ | ap <;> rw [hap] at h
                · cases h
                · simp only [Option.some_bind] at h
                  rcases hfo : pyOptListField jsonAsStr (Json.obj fields)
                      "format" with _ | fo <;> rw [hfo] at h
                  · cases h
                  · simp only [Option.some_bind] at h
                    rcases hfn : pyOptStrField (Json.obj fields)
                        "formatNameParameter" with _ | fn <;> rw [hfn] at h
                    · cases h
                    · simp only [Option.some_bind] at h
                      rcases hcp : pyOptStrField (Json.obj fields)
                          "commonParameters" with _ | cp <;> rw [hcp] at h
                      · cases h
                      · simp only [Option.some_bind] at h
                        rcases hap2 : pyListFieldD validateApplication
                            (Json.obj fields) "applications"
                            with _ | apps <;> rw [hap2] at h
                        · cases h
                        · simp only [Option.some_bind, Option.pure_def,
                            Option.some.injEq] at h
                          rw [← h]
                          exact ⟨rfl, rfl⟩
          exact ⟨hc.1 ▸ pyStrField_eq_some hid,
                 hc.2 ▸ pyStrField_eq_some hname⟩
  | null => cases h
  | bool b => cases h
  | num q => cases h
  | str s => cases h
  | arr xs => cases h

/-- C9 amended witness: the validator extracts `id`/`name` from a
concrete accepted input. -/
theorem C9_amended_witness :
    (Json.obj [("id", .str "cid"), ("name", .str "cname"),
               ("description", .str "")]).get "id" = some (.str "cid") ∧
    (Json.obj [("id", .str "cid"), ("name", .str "cname"),
               ("description", .str "")]).get "name" = some (.str "cname") :=
  C9_amended
    (.obj [("id", .str "cid"), ("name", .str "cname"),
           ("description", .str "")])
    { id_ := "cid", name := "cname", description := "" } rfl

theorem serialize_files_length_le (fs : Fs) (l : List String)
    (ctx : String) : (serialize_files fs l ctx).length ≤ l.length := by
  induction l with
  | nil => exact Nat.le_refl 0
  | cons p rest ih =>
      unfold serialize_files
      cases serialize_file fs p ctx with
      | none => exact Nat.le_succ_of_le ih
      | some f => exact Nat.succ_le_succ ih

theorem serialize_files_length_lt (fs : Fs) {l : List String}
    (ctx : String) {p : String} (hp : p ∈ l)
    (hn : serialize_file fs p ctx = none) :
    (serialize_files fs l ctx).length < l.length := by
  induction l with
  | nil => cases hp
  | cons q rest ih =>
      unfold serialize_files
      rcases List.mem_cons.mp hp with hq | hrest
      · subst hq
        rw [hn]
        exact Nat.lt_succ_of_le (serialize_files_length_le fs rest ctx)
      · cases serialize_file fs q ctx with
        | none => exact Nat.lt_succ_of_lt (ih hrest)
        | some f => exact Nat.succ_lt_succ (ih hrest)

theorem prepare_push_files_error_of_missing (fs : Fs)
    (publish_spec : PublishSpec) (ctx_path : String)
    (logoFiles : List (String × SerializedFile))
    (h : (∃ p ∈ publish_spec.docker_files,
            serialize_file fs p ctx_path = none) ∨
         (∃ p ∈ publish_spec.auxiliary_files,
            serialize_file fs p ctx_path = none)) :
    ∃ e, prepare_push_files fs publish_spec ctx_path logoFiles
      = .error e := by
  unfold prepare_push_files
  by_cases hd : (serialize_files fs publish_spec.docker_files
      ctx_path).length ≠ publish_spec.docker_files.length
  · exact ⟨_, by rw [if_pos hd]⟩
  · rw [if_neg hd]
    rcases h with ⟨p, hp, hn⟩ | ⟨p, hp, hn⟩
    · exact absurd (Nat.ne_of_lt
        (serialize_files_length_lt fs ctx_path hp hn)) hd
    · have ha : (serialize_files fs publish_spec.auxiliary_files
          ctx_path).length ≠ publish_spec.auxiliary_files.length :=
        Nat.ne_of_lt (serialize_files_length_lt fs ctx_path hp hn)
      exact ⟨_, by rw [if_pos ha]⟩

theorem prepare_push_request_error_of_missing (fs : Fs)
    (publish_spec : PublishSpec) (ctx_path : String)
    (h : (∃ p, publish_spec.container_logo = some p ∧
            serialize_file fs p ctx_path = none) ∨
         (∃ p ∈ publish_spec.docker_files,
            serialize_file fs p ctx_path = none) ∨
         (∃ p ∈ publish_spec.auxiliary_files,
            serialize_file fs p ctx_path = none)) :
    ∃ e, prepare_push_request fs publish_spec ctx_path = .error e := by
  unfold prepare_push_request
  rcases h with ⟨p, hlogo, hn⟩ | hrest
  · rw [hlogo]
    dsimp only
    rw [hn]
    exact ⟨_, rfl⟩
  · rcases hlogo : publish_spec.container_logo with _ | logoPath
    · dsimp only
      obtain ⟨e, he⟩ := prepare_push_files_error_of_missing fs
        publish_spec ctx_path [] hrest
      rw [he]
      exact ⟨e, rfl⟩
    · dsimp only
      rcases hser : serialize_file fs logoPath ctx_path with _ | logo
      · exact ⟨_, rfl⟩
      · dsimp only
        obtain ⟨e, he⟩ := prepare_push_files_error_of_missing fs
          publish_spec ctx_path [("containerLogo", logo)] hrest
        rw [he]
        exact ⟨e, rfl⟩

/-- C3: a publish spec referencing any missing file — a `containerLogo`
that does not resolve, or an entry of `dockerFiles` or
`auxiliaryFiles` that does not resolve (which the code detects by
comparing input and serialized counts) — makes `push` raise
`PublishDefinitionError` with zero network calls performed. -/
theorem C3_missing_files (fs : Fs) (publish_spec : PublishSpec)
    (ctx_path : String) (serverResponse : HttpResponse)
    (h : (∃ p, publish_spec.container_logo = some p ∧
            serialize_file fs p ctx_path = none) ∨
         (∃ p ∈ publish_spec.docker_files,
            serialize_file fs p ctx_path = none) ∨
         (∃ p ∈ publish_spec.auxiliary_files,
            serialize_file fs p ctx_path = none)) :
    ∃ msg, push fs publish_spec ctx_path serverResponse
      = (.error (.publishDefinitionError msg), 0) := by
  obtain ⟨e, he⟩ :=
    prepare_push_request_error_of_missing fs publish_spec ctx_path h
  refine ⟨publishDefinitionErrorMsg e, ?_⟩
  unfold push
  rw [he]

/-- C3 witness: a spec whose logo does not exist on an empty file
system; `push` raises the definition error without any network call. -/
theorem C3_missing_files_witness :
    (∃ p, specMissingLogo.container_logo = some p ∧
       serialize_file fsEmptyFiles p "/ctx" = none) ∧
    ∃ msg, push fsEmptyFiles specMissingLogo "/ctx" ⟨200, none⟩
      = (.error (.publishDefinitionError msg), 0) :=
  ⟨⟨"logo.png", rfl, rfl⟩,
   C3_missing_files fsEmptyFiles specMissingLogo "/ctx" ⟨200, none⟩
     (.inl ⟨"logo.png", rfl, rfl⟩)⟩

/-
Round-trip lemmas for C4: validating a dumped value recovers it.
-/

theorem rt_formatTypeOfStrToStr (e : FormatType) :
    FormatType.ofStr e.toStr = some e := by
  cases e <;> rfl

theorem rt_sensorTypeOfStrToStr (e : SensorType) :
    SensorType.ofStr e.toStr = some e := by
  cases e <;> rfl

theorem rt_paramTypeOfStrToStr (e : ParamType) :
    ParamType.ofStr e.toStr = some e := by
  cases e <;> rfl

theorem rt_visibilityOfStrToStr (e : Visibility) :
    Visibility.ofStr e.toStr = some e := by
  cases e <;> rfl

theorem rt_componentTypeOfStrToStr (e : ComponentType) :
    ComponentType.ofStr e.toStr = some e := by
  cases e <;> rfl

theorem rt_categoryOfStrToStr (e : Category) :
    Category.ofStr e.toStr = some e := by
  cases e <;> rfl

theorem rt_templateTypeOfStrToStr (e : TemplateType) :
    TemplateType.ofStr e.toStr = some e := by
  cases e <;> rfl

theorem listRoundTrip {α : Type} (f : α → Json) (g : Json → Option α)
    (l : List α) (h : ∀ x ∈ l, g (f x) = some x) :
    (l.map f).mapM g = some l := by
  induction l with
  | nil => rfl
  | cons a t ih =>
      rw [List.map_cons, List.mapM_cons, h a (List.mem_cons_self a t),
        ih fun x hx => h x (List.mem_cons_of_mem a hx)]
      rfl

theorem mapM_jsonAsStr (l : List String) :
    (l.map Json.str).mapM jsonAsStr = some l :=
  listRoundTrip Json.str jsonAsStr l fun _ _ => rfl

theorem rt_pyStrField (j : Json) (k : String) (s : String)
    (h : j.get k = some (.str s)) : pyStrField j k = some s := by
  simp [pyStrField, h]

theorem rt_pyStrFieldD (j : Json) (k : String) (s : String) (d : String)
    (h : j.get k = some (.str s)) : pyStrFieldD j k d = some s := by
  simp [pyStrFieldD, h]

theorem rt_pyOptStrField (j : Json) (k : String) (x : Option String)
    (h : j.get k = some (optJson Json.str x)) : pyOptStrField j k = some x := by
  cases x <;> simp [pyOptStrField, h, optJson]

theorem rt_pyBoolFieldD (j : Json) (k : String) (b : Bool) (d : Bool)
    (h : j.get k = some (.bool b)) : pyBoolFieldD j k d = some b := by
  simp [pyBoolFieldD, h]

theorem rt_pyOptBoolField (j : Json) (k : String) (x : Option Bool)
    (h : j.get k = some (optJson Json.bool x)) :
    pyOptBoolField j k = some x := by
  cases x <;> simp [pyOptBoolField, h, optJson]

theorem rt_pyIntFieldD (j : Json) (k : String) (n : Int) (d : Int)
    (h : j.get k = some (.num (n : ℚ))) : pyIntFieldD j k d = some n := by
  simp [pyIntFieldD, h]

theorem rt_pyOptIntField (j : Json) (k : String) (x : Option Int)
    (h : j.get k = some (optJson (fun n : Int => Json.num (n : ℚ)) x)) :
    pyOptIntField j k = some x := by
  cases x <;> simp [pyOptIntField, h, optJson]

theorem rt_pyEnumFieldD {α : Type} {ofS : String → Option α}
    {toS : α → String} (hof : ∀ a, ofS (toS a) = some a) (j : Json)
    (k : String) (e : α) (d : α) (h : j.get k = some (.str (toS e))) :
    pyEnumFieldD ofS j k d = some e := by
  simp [pyEnumFieldD, h, hof]

theorem rt_pyOptEnumField {α : Type} {ofS : String → Option α}
    {toS : α → String} (hof : ∀ a, ofS (toS a) = some a) (j : Json)
    (k : String) (x : Option α)
    (h : j.get k = some (optJson (fun t => .str (toS t)) x)) :
    pyOptEnumField ofS j k = some x := by
  cases x <;> simp [pyOptEnumField, h, optJson, hof]

theorem rt_pyListFieldD {α : Type} (g : Json → Option α) (f : α → Json)
    (j : Json) (k : String) (l : List α)
    (h : j.get k = some (.arr (l.map f)))
    (hrt : ∀ x ∈ l, g (f x) = some x) : pyListFieldD g j k = some l := by
  simp only [pyListFieldD, h]
  exact listRoundTrip f g l hrt

theorem rt_pyListField {α : Type} (g : Json → Option α) (f : α → Json)
    (j : Json) (k : String) (l : List α)
    (h : j.get k = some (.arr (l.map f)))
    (hrt : ∀ x ∈ l, g (f x) = some x) : pyListField g j k = some l := by
  simp only [pyListField, h]
  exact listRoundTrip f g l hrt

theorem rt_pyOptListField {α : Type} (g : Json → Option α) (f : α → Json)
    (j : Json) (k : String) (x : Option (List α))
    (h : j.get k = some (optJson (fun l => .arr (l.map f)) x))
    (hrt : ∀ l, x = some l → ∀ y ∈ l, g (f y) = some y) :
    pyOptListField g j k = some x := by
  cases x with
  | none => simp [pyOptListField, h, optJson]
  | some l =>
      simp only [pyOptListField, h, optJson]
      rw [listRoundTrip f g l (hrt l rfl)]
      rfl

theorem rt_pyDefaultValueField (j : Json) (k : String) (x : Option String)
    (h : j.get k = some (optJson Json.str x)) : pyDefaultValueField j k = x := by
  cases x <;> simp [pyDefaultValueField, h, optJson, pyStr]

theorem rt_validateDimension (dm : Dimension) :
    validateDimension (dumpDimension dm) = some dm := by
  simp [validateDimension, dumpDimension, pyNumField, Json.get,
    Json.get.lookupField]

theorem rt_pyOptDimensionField (j : Json) (k : String) (x : Option Dimension)
    (h : j.get k = some (optJson dumpDimension x)) :
    pyOptDimensionField j k = some x := by
  cases x with
  | none => simp [pyOptDimensionField, h, optJson]
  | some dm =>
      have hd : dumpDimension dm
          = Json.obj [("width", .num dm.width), ("height", .num dm.height)] :=
        rfl
      simp only [pyOptDimensionField, h, optJson, hd]
      rw [← hd, rt_validateDimension]
      rfl

theorem rt_validateVariable (v : Variable) :
    validateVariable (dumpVariable v) = some v := by
  simp [validateVariable, dumpVariable, pyStrField, Json.get,
    Json.get.lookupField]

theorem rt_validateDataDescriptor (d : DataDescriptor) :
    validateDataDescriptor (dumpDataDescriptor d) = some d := by
  unfold validateDataDescriptor
  split
  · simp only [
      rt_pyEnumFieldD rt_formatTypeOfStrToStr (dumpDataDescriptor d)
        "formatType" d.format_type .RASTER
        (by simp [dumpDataDescriptor, Json.get, Json.get.lookupField]),
      rt_pyOptStrField (dumpDataDescriptor d) "formatName" d.format_name
        (by simp [dumpDataDescriptor, Json.get, Json.get.lookupField]),
      rt_pyOptStrField (dumpDataDescriptor d) "geometry" d.geometry
        (by simp [dumpDataDescriptor, Json.get, Json.get.lookupField]),
      rt_pyOptStrField (dumpDataDescriptor d) "crs" d.crs
        (by simp [dumpDataDescriptor, Json.get, Json.get.lookupField]),
      rt_pyOptEnumField rt_sensorTypeOfStrToStr (dumpDataDescriptor d)
        "sensorType" d.sensor_type
        (by simp [dumpDataDescriptor, Json.get, Json.get.lookupField]),
      rt_pyOptDimensionField (dumpDataDescriptor d) "dimension" d.dimension
        (by simp [dumpDataDescriptor, Json.get, Json.get.lookupField]),
      rt_pyOptStrField (dumpDataDescriptor d) "location" d.location
        (by simp [dumpDataDescriptor, Json.get, Json.get.lookupField]),
      Option.bind_eq_bind, Option.some_bind, Option.pure_def]
  · rename_i heq
    exact (heq _ rfl).elim

theorem rt_validateSourceDescriptor (s : SourceDescriptor)
    (hval : -1 ≤ s.cardinality) :
    validateSourceDescriptor (dumpSourceDescriptor s) = some s := by
  unfold validateSourceDescriptor
  split
  · simp only [
      rt_pyOptStrField (dumpSourceDescriptor s) "id" s.id_
        (by simp [dumpSourceDescriptor, Json.get, Json.get.lookupField]),
      rt_pyStrField (dumpSourceDescriptor s) "parentId" s.parent_id
        (by simp [dumpSourceDescriptor, Json.get, Json.get.lookupField]),
      rt_pyStrField (dumpSourceDescriptor s) "name" s.name
        (by simp [dumpSourceDescriptor, Json.get, Json.get.lookupField]),
      show (dumpSourceDescriptor s).get "dataDescriptor"
          = some (dumpDataDescriptor s.data_descriptor) from
        (by simp [dumpSourceDescriptor, Json.get, Json.get.lookupField]),
      rt_validateDataDescriptor s.data_descriptor,
      rt_pyOptListField jsonAsStr Json.str (dumpSourceDescriptor s)
        "constraints" s.constraints
        (by simp [dumpSourceDescriptor, Json.get, Json.get.lookupField])
        (fun _ _ _ _ => rfl),
      rt_pyIntFieldD (dumpSourceDescriptor s) "cardinality" s.cardinality (-1)
        (by simp [dumpSourceDescriptor, Json.get, Json.get.lookupField]),
      rt_pyOptStrField (dumpSourceDescriptor s) "referencedSourceDescriptorId"
        s.referenced_source_descriptor_id
        (by simp [dumpSourceDescriptor, Json.get, Json.get.lookupField]),
      if_neg (not_lt.mpr hval),
      Option.bind_eq_bind, Option.some_bind, Option.pure_def]
  · rename_i heq
    exact (heq _ rfl).elim

theorem rt_validateTargetDescriptor (t : TargetDescriptor)
    (hval : 0 ≤ t.cardinality) :
    validateTargetDescriptor (dumpTargetDescriptor t) = some t := by
  unfold validateTargetDescriptor
  split
  · simp only [
      rt_pyOptStrField (dumpTargetDescriptor t) "id" t.id_
        (by simp [dumpTargetDescriptor, Json.get, Json.get.lookupField]),
      rt_pyStrField (dumpTargetDescriptor t) "parentId" t.parent_id
        (by simp [dumpTargetDescriptor, Json.get, Json.get.lookupField]),
      rt_pyStrField (dumpTargetDescriptor t) "name" t.name
        (by simp [dumpTargetDescriptor, Json.get, Json.get.lookupField]),
      show (dumpTargetDescriptor t).get "dataDescriptor"
          = some (dumpDataDescriptor t.data_descriptor) from
        (by simp [dumpTargetDescriptor, Json.get, Json.get.lookupField]),
      rt_validateDataDescriptor t.data_descriptor,
      rt_pyOptListField jsonAsStr Json.str (dumpTargetDescriptor t)
        "constraints" t.constraints
        (by simp [dumpTargetDescriptor, Json.get, Json.get.lookupField])
        (fun _ _ _ _ => rfl),
      rt_pyIntFieldD (dumpTargetDescriptor t) "cardinality" t.cardinality 0
        (by simp [dumpTargetDescriptor, Json.get, Json.get.lookupField]),
      rt_pyOptStrField (dumpTargetDescriptor t) "referencedTargetDescriptorId"
        t.referenced_target_descriptor_id
        (by simp [dumpTargetDescriptor, Json.get, Json.get.lookupField]),
      if_neg (not_lt.mpr hval),
      Option.bind_eq_bind, Option.some_bind, Option.pure_def]
  · rename_i heq
    exact (heq _ rfl).elim

theorem rt_data_type_check (s : String) (h : s ∈ possibleTypes) :
    data_type_check s = some s := by
  have hlow : pyLower s = s := by
    have hall : ∀ x ∈ possibleTypes, pyLower x = x := by decide
    exact hall s h
  unfold data_type_check
  rw [hlow, if_pos h]

theorem rt_validateParameterDescriptor (p : ParameterDescriptor)
    (hval : p.data_type ∈ possibleTypes) :
    validateParameterDescriptor (dumpParameterDescriptor p) = some p := by
  unfold validateParameterDescriptor
  split
  · simp only [
      rt_pyStrField (dumpParameterDescriptor p) "id" p.id_
        (by simp [dumpParameterDescriptor, Json.get, Json.get.lookupField]),
      rt_pyEnumFieldD rt_paramTypeOfStrToStr (dumpParameterDescriptor p)
        "type" p.type_ .REGULAR
        (by simp [dumpParameterDescriptor, Json.get, Json.get.lookupField]),
      rt_pyStrField (dumpParameterDescriptor p) "dataType" p.data_type
        (by simp [dumpParameterDescriptor, Json.get, Json.get.lookupField]),
      rt_data_type_check p.data_type hval,
      rt_pyDefaultValueField (dumpParameterDescriptor p) "defaultValue"
        p.default_value
        (by simp [dumpParameterDescriptor, Json.get, Json.get.lookupField]),
      rt_pyStrField (dumpParameterDescriptor p) "description" p.description
        (by simp [dumpParameterDescriptor, Json.get, Json.get.lookupField]),
      rt_pyStrField (dumpParameterDescriptor p) "label" p.label
        (by simp [dumpParameterDescriptor, Json.get, Json.get.lookupField]),
      rt_pyOptStrField (dumpParameterDescriptor p) "unit" p.unit
        (by simp [dumpParameterDescriptor, Json.get, Json.get.lookupField]),
      rt_pyOptListField jsonAsStr Json.str (dumpParameterDescriptor p)
        "valueSet" p.value_set
        (by simp [dumpParameterDescriptor, Json.get, Json.get.lookupField])
        (fun _ _ _ _ => rfl),
      rt_pyOptStrField (dumpParameterDescriptor p) "format" p.format_
        (by simp [dumpParameterDescriptor, Json.get, Json.get.lookupField]),
      rt_pyBoolFieldD (dumpParameterDescriptor p) "notNull" p.not_null true
        (by simp [dumpParameterDescriptor, Json.get, Json.get.lookupField]),
      Option.bind_eq_bind, Option.some_bind, Option.pure_def]
  · rename_i heq
    exact (heq _ rfl).elim

theorem rt_validateApplication (a : Application) :
    validateApplication (dumpApplication a) = some a := by
  unfold validateApplication
  split
  · simp only [
      rt_pyStrField (dumpApplication a) "path" a.path
        (by simp [dumpApplication, Json.get, Json.get.lookupField]),
      rt_pyStrField (dumpApplication a) "name" a.name
        (by simp [dumpApplication, Json.get, Json.get.lookupField]),
      show (dumpApplication a).get "memoryRequirements"
          = some (.num (a.memory_requirements : ℚ)) from
        (by simp [dumpApplication, Json.get, Json.get.lookupField]),
      rt_pyOptStrField (dumpApplication a) "parallelFlagTemplate"
        a.parallel_flag_template
        (by simp [dumpApplication, Json.get, Json.get.lookupField]),
      Rat.den_intCast, Rat.num_intCast, if_true, reduceIte,
      Option.bind_eq_bind, Option.some_bind, Option.pure_def]
  · rename_i heq
    exact (heq _ rfl).elim

theorem rt_validateContainerDescriptor (c : ContainerDescriptor) :
    validateContainerDescriptor (dumpContainerDescriptor c) = some c := by
  unfold validateContainerDescriptor
  split
  · simp only [
      rt_pyStrField (dumpContainerDescriptor c) "id" c.id_
        (by simp [dumpContainerDescriptor, Json.get, Json.get.lookupField]),
      rt_pyStrField (dumpContainerDescriptor c) "name" c.name
        (by simp [dumpContainerDescriptor, Json.get, Json.get.lookupField]),
      rt_pyStrField (dumpContainerDescriptor c) "description" c.description
        (by simp [dumpContainerDescriptor, Json.get, Json.get.lookupField]),
      rt_pyStrFieldD (dumpContainerDescriptor c) "tag" c.tag "latest"
        (by simp [dumpContainerDescriptor, Json.get, Json.get.lookupField]),
      rt_pyOptStrField (dumpContainerDescriptor c) "applicationPath"
        c.application_path
        (by simp [dumpContainerDescriptor, Json.get, Json.get.lookupField]),
      rt_pyOptListField jsonAsStr Json.str (dumpContainerDescriptor c)
        "format" c.format_
        (by simp [dumpContainerDescriptor, Json.get, Json.get.lookupField])
        (fun _ _ _ _ => rfl),
      rt_pyOptStrField (dumpContainerDescriptor c) "formatNameParameter"
        c.format_name_parameter
        (by simp [dumpContainerDescriptor, Json.get, Json.get.lookupField]),
      rt_pyOptStrField (dumpContainerDescriptor c) "commonParameters"
        c.common_parameters
        (by simp [dumpContainerDescriptor, Json.get, Json.get.lookupField]),
      rt_pyListFieldD validateApplication dumpApplication
        (dumpContainerDescriptor c) "applications" c.applications
        (by simp [dumpContainerDescriptor, Json.get, Json.get.lookupField])
        (fun a _ => rt_validateApplication a),
      Option.bind_eq_bind, Option.some_bind, Option.pure_def]
  · rename_i heq
    exact (heq _ rfl).elim

theorem rt_validateComponentDescriptor (c : ComponentDescriptor)
    (h : c.IsValid) :
    validateComponentDescriptor (dumpComponentDescriptor c) = some c := by
  obtain ⟨hs, ht, hp, hpar⟩ := h
  have hsrcs : ∀ x ∈ c.sources,
      validateSourceDescriptor (dumpSourceDescriptor x) = some x :=
    fun x hx => rt_validateSourceDescriptor x (hs x hx)
  have htgts : ∀ x ∈ c.targets,
      validateTargetDescriptor (dumpTargetDescriptor x) = some x :=
    fun x hx => rt_validateTargetDescriptor x (ht x hx)
  have hprms : ∀ x ∈ c.parameter_descriptors,
      validateParameterDescriptor (dumpParameterDescriptor x) = some x :=
    fun x hx => rt_validateParameterDescriptor x (hp x hx)
  unfold validateComponentDescriptor
  split
  · simp only [
      rt_pyStrField (dumpComponentDescriptor c) "id" c.id_
        (by simp [dumpComponentDescriptor, Json.get, Json.get.lookupField]),
      rt_pyStrField (dumpComponentDescriptor c) "label" c.label
        (by simp [dumpComponentDescriptor, Json.get, Json.get.lookupField]),
      rt_pyStrFieldD (dumpComponentDescriptor c) "version" c.version "1.0.0"
        (by simp [dumpComponentDescriptor, Json.get, Json.get.lookupField]),
      rt_pyStrFieldD (dumpComponentDescriptor c) "description" c.description ""
        (by simp [dumpComponentDescriptor, Json.get, Json.get.lookupField]),
      rt_pyStrFieldD (dumpComponentDescriptor c) "authors" c.authors ""
        (by simp [dumpComponentDescriptor, Json.get, Json.get.lookupField]),
      rt_pyStrFieldD (dumpComponentDescriptor c) "copyright" c.copyright_ ""
        (by simp [dumpComponentDescriptor, Json.get, Json.get.lookupField]),
      rt_pyStrFieldD (dumpComponentDescriptor c) "nodeAffinity"
        c.node_affinity "Any"
        (by simp [dumpComponentDescriptor, Json.get, Json.get.lookupField]),
      rt_pyOptStrField (dumpComponentDescriptor c) "containerId"
        c.container_id
        (by simp [dumpComponentDescriptor, Json.get, Json.get.lookupField]),
      rt_pyEnumFieldD rt_visibilityOfStrToStr (dumpComponentDescriptor c)
        "visibility" c.visibility .USER
        (by simp [dumpComponentDescriptor, Json.get, Json.get.lookupField]),
      rt_pyBoolFieldD (dumpComponentDescriptor c) "active" c.active true
        (by simp [dumpComponentDescriptor, Json.get, Json.get.lookupField]),
      rt_pyEnumFieldD rt_componentTypeOfStrToStr (dumpComponentDescriptor c)
        "componentType" c.component_type .EXECUTABLE
        (by simp [dumpComponentDescriptor, Json.get, Json.get.lookupField]),
      rt_pyEnumFieldD rt_categoryOfStrToStr (dumpComponentDescriptor c)
        "category" c.category .RASTER
        (by simp [dumpComponentDescriptor, Json.get, Json.get.lookupField]),
      show (dumpComponentDescriptor c).get "outputManaged"
          = some (.bool c.output_managed) from
        (by simp [dumpComponentDescriptor, Json.get, Json.get.lookupField]),
      rt_pyBoolFieldD (dumpComponentDescriptor c) "outputManaged"
        c.output_managed false
        (by simp [dumpComponentDescriptor, Json.get, Json.get.lookupField]),
      rt_pyOptListField jsonAsStr Json.str (dumpComponentDescriptor c)
        "tags" c.tags
        (by simp [dumpComponentDescriptor, Json.get, Json.get.lookupField])
        (fun _ _ _ _ => rfl),
      rt_pyListFieldD validateSourceDescriptor dumpSourceDescriptor
        (dumpComponentDescriptor c) "sources" c.sources
        (by simp [dumpComponentDescriptor, Json.get, Json.get.lookupField])
        hsrcs,
      rt_pyListFieldD validateTargetDescriptor dumpTargetDescriptor
        (dumpComponentDescriptor c) "targets" c.targets
        (by simp [dumpComponentDescriptor, Json.get, Json.get.lookupField])
        htgts,
      rt_pyStrField (dumpComponentDescriptor c) "fileLocation"
        c.file_location
        (by simp [dumpComponentDescriptor, Json.get, Json.get.lookupField]),
      rt_pyStrField (dumpComponentDescriptor c) "workingDirectory"
        c.working_directory
        (by simp [dumpComponentDescriptor, Json.get, Json.get.lookupField]),
      rt_pyEnumFieldD rt_templateTypeOfStrToStr (dumpComponentDescriptor c)
        "templateType" c.template_type .VELOCITY
        (by simp [dumpComponentDescriptor, Json.get, Json.get.lookupField]),
      rt_pyOptListField validateVariable dumpVariable
        (dumpComponentDescriptor c) "variables" c.variables_
        (by simp [dumpComponentDescriptor, Json.get, Json.get.lookupField])
        (fun _ _ y _ => rt_validateVariable y),
      rt_pyBoolFieldD (dumpComponentDescriptor c) "multiThread"
        c.multi_thread false
        (by simp [dumpComponentDescriptor, Json.get, Json.get.lookupField]),
      rt_pyOptIntField (dumpComponentDescriptor c) "parallelism"
        c.parallelism
        (by simp [dumpComponentDescriptor, Json.get, Json.get.lookupField]),
      rt_pyOptStrField (dumpComponentDescriptor c) "owner" c.owner
        (by simp [dumpComponentDescriptor, Json.get, Json.get.lookupField]),
      rt_pyOptBoolField (dumpComponentDescriptor c) "transient" c.transient
        (by simp [dumpComponentDescriptor, Json.get, Json.get.lookupField]),
      rt_pyListField validateParameterDescriptor dumpParameterDescriptor
        (dumpComponentDescriptor c) "parameterDescriptors"
        c.parameter_descriptors
        (by simp [dumpComponentDescriptor, Json.get, Json.get.lookupField])
        hprms,
      rt_pyStrFieldD (dumpComponentDescriptor c) "templatecontents"
        c.template_contents ""
        (by simp [dumpComponentDescriptor, Json.get, Json.get.lookupField])]
    split
    · rename_i n hn
      have hn0 : ¬ (n ≤ 0) := by
        have := hpar n hn
        omega
      rw [if_neg hn0]
    · rfl
  · rename_i heq
    exact (heq _ rfl).elim

theorem push_request_data_get (spec : PublishSpec) :
    (Json.obj (assocSet
        (assocSet
          (assocRemove (assocRemove (publish_spec_dump spec) "container")
            "components")
          "containerDescriptor"
          (json_dumps
            (((Json.obj (publish_spec_dump spec)).get "container").getD .null)))
        "componentDescriptors"
        (json_dumps
          (((Json.obj (publish_spec_dump spec)).get "components").getD
            .null)))).get "containerDescriptor"
      = some (json_dumps (dumpContainerDescriptor spec.container)) ∧
    (Json.obj (assocSet
        (assocSet
          (assocRemove (assocRemove (publish_spec_dump spec) "container")
            "components")
          "containerDescriptor"
          (json_dumps
            (((Json.obj (publish_spec_dump spec)).get "container").getD .null)))
        "componentDescriptors"
        (json_dumps
          (((Json.obj (publish_spec_dump spec)).get "components").getD
            .null)))).get "componentDescriptors"
      = some (json_dumps
          (.arr (spec.components.map dumpComponentDescriptor))) := by
  constructor <;>
    simp [publish_spec_dump, assocRemove, assocSet, json_dumps,
      Json.get, Json.get.lookupField, List.filter, List.any]

/-- C4: for every valid `PublishSpec`, the wire form built by
`_prepare_push_request` carries the container and the component list
re-encoded as JSON text under `containerDescriptor` and
`componentDescriptors`, and validating those JSON values back into
`ContainerDescriptor` / `ComponentDescriptor` structures reproduces
the original `container` and `components` values exactly. -/
theorem C4_roundtrip (spec : PublishSpec) (h : spec.IsValid) :
    validateContainerDescriptor
        (json_dumps (dumpContainerDescriptor spec.container))
      = some spec.container ∧
    (spec.components.map dumpComponentDescriptor).mapM
        validateComponentDescriptor
      = some spec.components ∧
    (∀ fs ctx_path data files,
      prepare_push_request fs spec ctx_path = .ok (data, files) →
      (Json.obj data).get "containerDescriptor"
          = some (json_dumps (dumpContainerDescriptor spec.container)) ∧
      (Json.obj data).get "componentDescriptors"
          = some (json_dumps
              (.arr (spec.components.map dumpComponentDescriptor)))) := by
  refine ⟨?_, ?_, ?_⟩
  · exact rt_validateContainerDescriptor spec.container
  · exact listRoundTrip dumpComponentDescriptor validateComponentDescriptor
      spec.components (fun c hc => rt_validateComponentDescriptor c (h c hc))
  · intro fs ctx_path data files hprep
    unfold prepare_push_request at hprep
    dsimp only at hprep
    split at hprep
    · simp at hprep
    · split at hprep
      · simp at hprep
      · rw [Except.ok.injEq, Prod.mk.injEq] at hprep
        obtain ⟨hdata, _⟩ := hprep
        rw [← hdata]
        exact push_request_data_get spec

/-- C4 witness: a concrete valid spec exercising every field kind
round-trips. -/
theorem C4_roundtrip_witness :
    specSample.IsValid ∧
    validateContainerDescriptor
        (json_dumps (dumpContainerDescriptor specSample.container))
      = some specSample.container ∧
    (specSample.components.map dumpComponentDescriptor).mapM
        validateComponentDescriptor
      = some specSample.components := by
  have hv : specSample.IsValid := by
    intro c hc
    have hc' : c = compSample := by
      simpa [specSample] using hc
    subst hc'
    refine ⟨?_, ?_, ?_, ?_⟩
    · intro s hs
      simp only [compSample] at hs
      simp only [List.mem_singleton] at hs
      subst hs
      unfold SourceDescriptor.IsValid
      decide
    · intro t ht
      simp only [compSample] at ht
      simp only [List.mem_singleton] at ht
      subst ht
      unfold TargetDescriptor.IsValid
      decide
    · intro p hp
      simp only [compSample] at hp
      simp only [List.mem_singleton] at hp
      subst hp
      unfold ParameterDescriptor.IsValid
      decide
    · intro n hn
      simp only [compSample] at hn
      rw [Option.some.injEq] at hn
      omega
  have hmain := C4_roundtrip specSample hv
  exact ⟨hv, hmain.1, hmain.2.1⟩
